import Mathlib

/-!
Verification of the game-coordination core of the `jeopardy` repository
(`jeopardy_game.py`, `jeopardy_model.py`).

The data model and operations below are a shallow embedding of the Python
source.  Stateful methods of `Game` become pure functions from a `Game`
value to a `StepResult` recording the new state, the broadcasts handed to
the worker pool, and the timeout watchers spawned.  External collaborators
(the difflib similarity score, the nltk stemmer and stopword corpus, the
HTTP question source, the flask request context) appear as explicit
parameters, exactly where the source reads them.
-/

namespace Jeopardy

/-- A minimal JSON value type for event payloads and serialized records. -/
inductive Json where
  | str (s : String)
  | int (n : Int)
  | bool (b : Bool)
  | obj (fields : List (String × Json))

/-- Field lookup in a JSON object (used to state facts about payloads). -/
def Json.get_field : Json → String → Option Json
  | .obj fields, key => fields.lookup key
  | _, _ => none

/-- `Question` from `jeopardy_model.py`: question_id, text, answer, category, value. -/
structure Question where
  question_id : String
  text : String
  answer : String
  category : String
  value : Int

/-- `Question.to_json` from `jeopardy_model.py`: the inherited `Model.to_json`
emits every dataclass field in declaration order, then the override blanks the
`answer` field (`json['answer'] = ''`). -/
def Question.to_json (q : Question) : Json :=
  Json.obj [("question_id", Json.str q.question_id),
            ("text", Json.str q.text),
            ("answer", Json.str ""),
            ("category", Json.str q.category),
            ("value", Json.int q.value)]

/-- Modelled from the spec: `PlayerInfo` is imported from `jeopardy_model` by
`jeopardy_game.py` but is absent from the sources provided.  Per spec §3 a
Player is `{player_id, endpoint, nick, score, correct_answers, total_answers}`,
created on registration (the game constructs it from `player_id`,
`client_address` and `nick`, so the counters start at zero). -/
structure PlayerInfo where
  player_id : String
  client_address : String
  nick : String
  score : Int
  correct_answers : Int
  total_answers : Int

/-- Modelled from the spec: the full (non-redacted) serialization of a player
record, every field included (spec §4.2: answers/score are not sensitive). -/
def PlayerInfo.to_json (p : PlayerInfo) : Json :=
  Json.obj [("player_id", Json.str p.player_id),
            ("client_address", Json.str p.client_address),
            ("nick", Json.str p.nick),
            ("score", Json.int p.score),
            ("correct_answers", Json.int p.correct_answers),
            ("total_answers", Json.int p.total_answers)]

/-- An outbound event.  The `Event` dataclass in the provided
`jeopardy_model.py` declares only `event_type`; the `payload` field used by
every constructor call in `jeopardy_game.py` is modelled from the spec
(§3 Event: `{event_type, payload}`). -/
structure Event where
  event_type : String
  payload : Json

/-- One call to `Game.notify(event, exclude=...)`: the event handed to the
worker pool together with the excluded player id (the source passes either
`None` or the singleton `{player_id}`). -/
structure Broadcast where
  event : Event
  exclude : Option String

/-- The `Game` aggregate: player registry (a dict, modelled as an
insertion-ordered association list with unique keys), the current question,
and the in-progress flag. -/
structure Game where
  players : List (String × PlayerInfo)
  current_question : Option Question
  in_progress : Bool

/-- The observable result of one locked transition: the new state, the
broadcasts submitted to the pool (in submission order), and the timeout
watchers spawned (`pool.submit(self.question_timeout, question)`). -/
structure StepResult where
  game : Game
  broadcasts : List Broadcast
  watchers : List Question

/-- The registration request consumed by `Game.register_player`.  The
provided `jeopardy_model.py` declares `RegisterRequest(address, client_id)`,
but the game code reads `player_id`, `address` and `nick`; those three
fields are modelled from the spec (§4.2 `register(id, endpoint, nick)`). -/
structure RegisterRequest where
  player_id : String
  address : String
  nick : String

/-- Python exceptions that `Game` methods can raise: an `AttributeError`
from dereferencing `None` (carrying the attribute name) or an explicit
`RuntimeError` (carrying the message). -/
inductive PyError where
  | attributeError (attr : String)
  | runtimeError (msg : String)

/-- Replace the value stored under a key in the registry (models in-place
mutation of the `PlayerInfo` object held by the dict). -/
def update_assoc (l : List (String × PlayerInfo)) (k : String) (v : PlayerInfo) :
    List (String × PlayerInfo) :=
  l.map (fun kv => if kv.1 = k then (k, v) else kv)

/-- `Game.register_player`: if the id is absent, insert a fresh `PlayerInfo`
and broadcast `NEW_PLAYER` with the full player record; otherwise do nothing. -/
def Game.register_player (g : Game) (req : RegisterRequest) : StepResult :=
  if (g.players.lookup req.player_id).isNone then
    let player : PlayerInfo :=
      { player_id := req.player_id, client_address := req.address, nick := req.nick,
        score := 0, correct_answers := 0, total_answers := 0 }
    { game := { g with players := g.players ++ [(req.player_id, player)] },
      broadcasts := [⟨⟨"NEW_PLAYER", player.to_json⟩, none⟩],
      watchers := [] }
  else
    { game := g, broadcasts := [], watchers := [] }

/-- `Game.update_current_question` (source lines 86-97): under the lock, if
there is no current question or the new question is `None`, store the new
question; when it is an actual question, broadcast `NEW_QUESTION` (redacted
via `Question.to_json`) excluding the optional submitting player, and spawn
a timeout watcher for it.  Otherwise the call is a no-op. -/
def Game.update_current_question (g : Game) (question : Option Question)
    (player_id : Option String) : StepResult :=
  if g.current_question.isNone || question.isNone then
    match question with
    | some q =>
        { game := { g with current_question := some q },
          broadcasts := [⟨⟨"NEW_QUESTION", q.to_json⟩, player_id⟩],
          watchers := [q] }
    | none =>
        { game := { g with current_question := none }, broadcasts := [], watchers := [] }
  else
    { game := g, broadcasts := [], watchers := [] }

/-- The `NEW_GAME` broadcast emitted by `Game.start` (empty payload, no
exclusion). -/
def new_game_broadcast : Broadcast := ⟨⟨"NEW_GAME", Json.obj []⟩, none⟩

/-- `Game.start` (source lines 76-84).  The outcome of `get_random_question()`
(an external HTTP service; `None` on failure) is the `fetched` parameter.
When a game is already in progress the call is a no-op.  Otherwise it first
broadcasts `NEW_GAME`, then inspects the fetched question: on `None` it
raises `RuntimeError('Failed to fetch starting question')` leaving the state
untouched (`in_progress` is only set afterwards); on success it sets
`in_progress` and hands the question to `update_current_question`.  The
second component carries the raised error, if any. -/
def Game.start (g : Game) (fetched : Option Question) : StepResult × Option String :=
  if g.in_progress then
    ({ game := g, broadcasts := [], watchers := [] }, none)
  else
    match fetched with
    | none =>
        ({ game := g, broadcasts := [new_game_broadcast], watchers := [] },
         some "Failed to fetch starting question")
    | some q =>
        let r := Game.update_current_question { g with in_progress := true } (some q) none
        ({ game := r.game, broadcasts := new_game_broadcast :: r.broadcasts,
           watchers := r.watchers }, none)

/-- `Game.is_current_question`: true when a question is current and its id
matches. -/
def Game.is_current_question (g : Game) (question_id : String) : Bool :=
  match g.current_question with
  | none => false
  | some q => q.question_id = question_id

/-- The final, lock-guarded step of `Game.question_timeout` (source lines
125-132), reached after the 30-second polling loop: if the watched question
is still current, clear it and broadcast `QUESTION_TIMEOUT` revealing the
answer; if the question already changed, exit silently.  The real-time
polling loop only decides when this atomic check runs, never what it does. -/
def Game.question_timeout (g : Game) (question : Question) : StepResult :=
  if g.is_current_question question.question_id then
    { game := { g with current_question := none },
      broadcasts := [⟨⟨"QUESTION_TIMEOUT", Json.obj [("answer", Json.str question.answer)]⟩, none⟩],
      watchers := [] }
  else
    { game := g, broadcasts := [], watchers := [] }

/-! ### The answer matcher (`check_guess`, `process_token`, source lines 152-172) -/

/-- `MATCH_RATIO_THRESHOLD = 0.75` from the source, as the exact rational
3/4 (0.75 is exactly representable, so the float comparison is exact).
Written as an explicit reduced fraction so that kernel evaluation works;
`MATCH_RATIO_THRESHOLD_eq` below checks it is 3/4. -/
def MATCH_RATIO_THRESHOLD : ℚ := ⟨3, 4, by decide, by decide⟩

/-- `string.punctuation` from the Python standard library: the 32 ASCII
punctuation characters deleted by `REMOVE_PUNCTUATION_TRANSLATIONS`. -/
def python_punctuation : List Char :=
  "!\"#$%&\x27()*+,-./:;<=>?@[\\]^_\x60\x7b|\x7d~".data

/-- Python `str.lower` restricted to ASCII letters (the only characters the
concrete instances below use). -/
def py_lower (c : Char) : Char :=
  if 'A' ≤ c ∧ c ≤ 'Z' then Char.ofNat (c.toNat + 32) else c

/-- Python whitespace as recognized by `str.split()` with no argument. -/
def is_py_space (c : Char) : Bool :=
  c = ' ' || c = '\t' || c = '\n' || c = '\x0b' || c = '\x0c' || c = '\r'

/-- Helper for `split_ws`: accumulate the current word (reversed) and emit it
at each whitespace boundary; empty words are never emitted. -/
def split_ws_aux : List Char → List Char → List (List Char)
  | [], acc => if acc.isEmpty then [] else [acc.reverse]
  | c :: rest, acc =>
      if is_py_space c then
        if acc.isEmpty then split_ws_aux rest []
        else acc.reverse :: split_ws_aux rest []
      else split_ws_aux rest (c :: acc)

/-- Python `str.split()` with no argument: split on runs of whitespace,
discarding empty tokens. -/
def split_ws (l : List Char) : List (List Char) := split_ws_aux l []

/-- `process_token` (source lines 171-172): lower-case, delete punctuation,
then stem.  The Snowball stemmer is nltk corpus machinery external to the
repository, so it is a parameter. -/
def process_token (stem : List Char → List Char) (token : List Char) : List Char :=
  stem ((token.map py_lower).filter (fun c => !(python_punctuation.contains c)))

/-- `guess_tokens` of source line 164: every whitespace token of the guess,
normalized.  Guess tokens are never stopword-filtered. -/
def guess_token_list (stem : List Char → List Char) (guess : List Char) :
    List (List Char) :=
  (split_ws guess).map (process_token stem)

/-- `answer_tokens` of source lines 165-166: every whitespace token of the
answer, normalized, then with stopwords removed (the processed token is
tested against the stopword list). -/
def answer_token_list (stem : List Char → List Char) (stops : List (List Char))
    (correct_answer : List Char) : List (List Char) :=
  (((split_ws correct_answer).map (process_token stem)).filter
    (fun tok => !(stops.contains tok)))

/-- The token-set coverage step of `check_guess` (source lines 164-168):
`matched = set(guess_tokens).intersection(set(answer_tokens))` and the
result is `len(matched) == len(answer_tokens)` — note the right-hand side is
the length of the answer token *list*, not of its set. -/
def token_coverage (stem : List Char → List Char) (stops : List (List Char))
    (guess correct_answer : List Char) : Bool :=
  ((guess_token_list stem guess).toFinset ∩
      (answer_token_list stem stops correct_answer).toFinset).card
    == (answer_token_list stem stops correct_answer).length

/-- The external resources `check_guess` reads: the character-level
similarity score `SequenceMatcher(None, a, b).ratio()` from difflib, the
nltk Snowball stemmer, and the nltk English stopword corpus.  All three are
outside the repository, so the matcher is parametric in them. -/
structure MatcherEnv where
  similarity : List Char → List Char → ℚ
  stem : List Char → List Char
  stopword_list : List (List Char)

/-- Longest run of characters that are not parentheses (the greedy
`[^()]*` / `[^()]+` pieces of the regular expression). -/
def take_np : List Char → List Char
  | [] => []
  | c :: rest => if c = '(' ∨ c = ')' then [] else c :: take_np rest

/-- What remains after `take_np`. -/
def drop_np : List Char → List Char
  | [] => []
  | c :: rest => if c = '(' ∨ c = ')' then c :: rest else drop_np rest

/-- The scan of `re.findall(r'\([^()]*\)|[^()]+', correct_answer)` (source
line 153), one position at a time exactly as the re module scans: at `(`
try to match a parenthesized group `([^()]*)` (succeeds iff the next
paren-character is a closing one), else fail and rescan one character
later; a lone `)` matches nothing; any other character starts a greedy
`[^()]+` match.  The fuel argument only bounds the recursion; every call
strictly shrinks the list while consuming one unit of fuel, so
`find_potential_answers` below always supplies enough. -/
def fpa_fuel : Nat → List Char → List (List Char)
  | 0, _ => []
  | _ + 1, [] => []
  | f + 1, c :: rest =>
      if c = '(' then
        match drop_np rest with
        | ')' :: rest2 => ('(' :: (take_np rest ++ [')'])) :: fpa_fuel f rest2
        | _ => fpa_fuel f rest
      else if c = ')' then fpa_fuel f rest
      else (c :: take_np rest) :: fpa_fuel f (drop_np rest)

/-- `potential_answers = re.findall(r'\([^()]*\)|[^()]+', correct_answer)`. -/
def find_potential_answers (l : List Char) : List (List Char) :=
  fpa_fuel l.length l

/-- `potential_answer.replace('(', '').replace(')', '')` (source line 156). -/
def strip_parens (l : List Char) : List Char :=
  l.filter (fun c => !(c = '(' || c = ')'))

/-- Steps 2 and 3 of `check_guess` (source lines 160-168), reached when the
parenthetical split does not return: the fuzzy-similarity test against
`MATCH_RATIO_THRESHOLD`, then the token-set coverage step. -/
def check_guess_rest (env : MatcherEnv) (guess correct_answer : List Char) : Bool :=
  if MATCH_RATIO_THRESHOLD ≤ env.similarity guess correct_answer then true
  else token_coverage env.stem env.stopword_list guess correct_answer

/-- `check_guess` (source lines 152-168) with an explicit recursion bound:
when the answer splits into exactly two potential answers, the guess is
checked recursively against each of them with parentheses stripped, and a
hit returns true; otherwise fall through to the fuzzy and token steps.
Each recursive call strictly shrinks the answer (see `strip_parens_lt`), so
a fuel of `length + 1` (as used by `check_guess`) is never exhausted;
`check_guess_fuel_congr` proves the value is fuel-independent in that
range. -/
def check_guess_fuel (env : MatcherEnv) : Nat → List Char → List Char → Bool
  | 0, _, _ => false
  | f + 1, guess, correct_answer =>
      if (find_potential_answers correct_answer).length = 2 &&
          (find_potential_answers correct_answer).any
            (fun pa => check_guess_fuel env f guess (strip_parens pa)) then
        true
      else
        check_guess_rest env guess correct_answer

/-- The module-level `check_guess(guess, correct_answer)` of
`jeopardy_game.py`. -/
def check_guess (env : MatcherEnv) (guess correct_answer : List Char) : Bool :=
  check_guess_fuel env (correct_answer.length + 1) guess correct_answer

/-! ### `Game.check_guess` (source lines 99-116) -/

/-- The player record after one guess, as mutated in place by the source:
`total_answers` always increments; on a correct guess `correct_answers` and
`score` (by the question's value) increment as well. -/
def updated_player (env : MatcherEnv) (guess : String) (p : PlayerInfo)
    (q : Question) : PlayerInfo :=
  let p1 := { p with total_answers := p.total_answers + 1 }
  if check_guess env guess.data q.answer.data then
    { p1 with correct_answers := p1.correct_answers + 1, score := p1.score + q.value }
  else p1

/-- `Game.check_guess` (source lines 99-116).  The first statement
dereferences `self.current_question.answer`, so with no current question
the method raises `AttributeError` before anything else happens.  The
submitting player's id comes from the flask request context
(`get_player_id()`), modelled as the `player_id` parameter; an unregistered
id makes `player.total_answers += 1` dereference `None`.  Otherwise the
matcher runs, the player record is mutated, a correct guess clears the
current question through `update_current_question(None)` (which broadcasts
nothing), and a single `NEW_ANSWER` event carrying the guess text, the
updated player record and the correctness flag is broadcast with no
exclusion. -/
def Game.check_guess (env : MatcherEnv) (g : Game) (player_id guess : String) :
    Except PyError (Bool × StepResult) :=
  match g.current_question with
  | none => .error (.attributeError "answer")
  | some q =>
      let correct := Jeopardy.check_guess env guess.data q.answer.data
      match g.players.lookup player_id with
      | none => .error (.attributeError "total_answers")
      | some p =>
          let p2 := updated_player env guess p q
          let g1 : Game := { g with players := update_assoc g.players player_id p2 }
          let r1 := if correct then Game.update_current_question g1 none none
                    else { game := g1, broadcasts := [], watchers := [] }
          let event : Event :=
            ⟨"NEW_ANSWER",
             Json.obj [("answer", Json.str guess),
                       ("player", p2.to_json),
                       ("is_correct", Json.bool correct)]⟩
          .ok (correct,
               { game := r1.game,
                 broadcasts := r1.broadcasts ++ [⟨event, none⟩],
                 watchers := r1.watchers })

/-! ### Concrete instances for witnesses and counterexamples -/

/-- Modelled from the spec: a representative sample of nltk's English
stopword corpus (external data the source reads through
`stopwords.words('english')`).  The concrete facts proved below depend only
on the membership status of the specific tokens they mention, which agrees
with the full corpus. -/
def english_stopwords : List (List Char) :=
  ["i", "me", "my", "we", "our", "ours", "you", "he", "she", "it", "they",
   "them", "the", "a", "an", "and", "or", "but", "if", "of", "at", "by",
   "for", "with", "to", "from", "in", "on", "is", "are", "was", "were",
   "be", "been", "this", "that", "these", "those", "what", "which", "who",
   "not", "no", "so", "too", "very"].map String.data

/-- A matcher environment whose similarity score always clears the 0.75
threshold; the stemmer is the identity, which agrees with the Snowball
stemmer on every token appearing in the concrete instances below. -/
def sample_env : MatcherEnv := ⟨fun _ _ => 1, id, english_stopwords⟩

/-- A matcher environment whose similarity score never clears the 0.75
threshold, forcing the token-coverage step to decide. -/
def sample_env_zero : MatcherEnv := ⟨fun _ _ => 0, id, english_stopwords⟩

def q_paris : Question :=
  ⟨"q-1", "This city is the capital of France", "Paris", "Geography", 200⟩

def q_everest : Question :=
  ⟨"q-2", "The tallest mountain on Earth", "Mount Everest (Sagarmatha)", "Geography", 400⟩

def alice : PlayerInfo := ⟨"p1", "1.2.3.4:5000", "Alice", 0, 0, 0⟩

/-- Alice after one correct guess on `q_paris`. -/
def alice_scored : PlayerInfo := ⟨"p1", "1.2.3.4:5000", "Alice", 200, 1, 1⟩

def bob : PlayerInfo := ⟨"p2", "5.6.7.8:5001", "Bob", 0, 0, 0⟩

def empty_game : Game := ⟨[], none, false⟩

def lobby_game : Game := ⟨[("p1", alice)], none, false⟩

def active_game : Game := ⟨[("p1", alice)], some q_paris, true⟩

def req_alice : RegisterRequest := ⟨"p1", "1.2.3.4:5000", "Alice"⟩

def req_bob : RegisterRequest := ⟨"p2", "5.6.7.8:5001", "Bob"⟩

/-- The step result of Alice's correct guess `"paris"` in `active_game`
under `sample_env`. -/
def guess_result : StepResult :=
  ⟨⟨[("p1", alice_scored)], none, true⟩,
   [⟨⟨"NEW_ANSWER",
      Json.obj [("answer", Json.str "paris"),
                ("player", alice_scored.to_json),
                ("is_correct", Json.bool true)]⟩, none⟩],
   []⟩

/-! ### Helper lemmas -/

/-- The source constant is exactly 0.75. -/
theorem MATCH_RATIO_THRESHOLD_eq : MATCH_RATIO_THRESHOLD = 3 / 4 := by
  rw [MATCH_RATIO_THRESHOLD, Rat.mk'_eq_divInt, Rat.divInt_eq_div]
  norm_num

theorem take_np_append_drop_np (l : List Char) : take_np l ++ drop_np l = l := by
  induction l with
  | nil => rfl
  | cons c rest ih =>
      by_cases h : c = '(' ∨ c = ')'
      · simp [take_np, drop_np, h]
      · simp [take_np, drop_np, h, ih]

theorem length_drop_np_le (l : List Char) : (drop_np l).length ≤ l.length := by
  induction l with
  | nil => simp [drop_np]
  | cons c rest ih =>
      by_cases h : c = '(' ∨ c = ')'
      · simp [drop_np, h]
      · simp only [drop_np, h, if_false, List.length_cons]
        omega

/-- Every segment produced by the findall scan is nonempty. -/
theorem fpa_fuel_ne_nil (f : Nat) :
    ∀ (l : List Char), ∀ pa ∈ fpa_fuel f l, pa ≠ [] := by
  induction f with
  | zero => intro l pa h; simp [fpa_fuel] at h
  | succ f ih =>
      intro l pa h
      cases l with
      | nil => simp [fpa_fuel] at h
      | cons c rest =>
          rw [fpa_fuel] at h
          split at h
          · split at h
            · rcases List.mem_cons.mp h with h1 | h1
              · subst h1; simp
              · exact ih _ pa h1
            · exact ih rest pa h
          · split at h
            · exact ih rest pa h
            · rcases List.mem_cons.mp h with h1 | h1
              · subst h1; simp
              · exact ih _ pa h1

/-- The segments produced by the findall scan are disjoint substrings, so
their total length is bounded by the input length. -/
theorem fpa_fuel_sum_le (f : Nat) :
    ∀ (l : List Char), ((fpa_fuel f l).map List.length).sum ≤ l.length := by
  induction f with
  | zero => intro l; simp [fpa_fuel]
  | succ f ih =>
      intro l
      cases l with
      | nil => simp [fpa_fuel]
      | cons c rest =>
          rw [fpa_fuel]
          have hsplit := take_np_append_drop_np rest
          have h3 : rest.length = (take_np rest).length + (drop_np rest).length := by
            conv_lhs => rw [← hsplit]
            simp
          split
          · split
            · next rest2 heq =>
                have h2 := ih rest2
                rw [heq] at h3
                simp at h3 ⊢
                omega
            · have h2 := ih rest
              simp only [List.length_cons]
              omega
          · split
            · have h2 := ih rest
              simp only [List.length_cons]
              omega
            · have h2 := ih (drop_np rest)
              simp only [List.map_cons, List.sum_cons, List.length_cons]
              omega

/-- When the answer splits into exactly two potential answers, each of
them, with parentheses stripped, is strictly shorter than the answer. -/
theorem strip_parens_lt {l pa : List Char}
    (h2 : (find_potential_answers l).length = 2)
    (hm : pa ∈ find_potential_answers l) :
    (strip_parens pa).length < l.length := by
  have hne : ∀ x ∈ find_potential_answers l, x ≠ [] := fpa_fuel_ne_nil l.length l
  have hsum : ((find_potential_answers l).map List.length).sum ≤ l.length :=
    fpa_fuel_sum_le l.length l
  rcases List.length_eq_two.mp h2 with ⟨a, b, hab⟩
  rw [hab] at hm hsum hne
  have ha : a ≠ [] := hne a (by simp)
  have hb : b ≠ [] := hne b (by simp)
  have ha1 : 1 ≤ a.length := List.length_pos.mpr ha
  have hb1 : 1 ≤ b.length := List.length_pos.mpr hb
  simp only [List.map_cons, List.map_nil, List.sum_cons, List.sum_nil] at hsum
  have hstrip : (strip_parens pa).length ≤ pa.length := List.length_filter_le _ _
  rcases List.mem_pair.mp hm with h | h <;> subst h <;> omega

theorem list_any_congr_of_mem {α : Type} {l : List α} {f g : α → Bool}
    (h : ∀ x ∈ l, f x = g x) : l.any f = l.any g := by
  induction l with
  | nil => rfl
  | cons a t ih =>
      simp only [List.any_cons]
      rw [h a (List.mem_cons_self a t),
        ih (fun x hx => h x (List.mem_cons_of_mem a hx))]

/-- The value of `check_guess_fuel` does not depend on the fuel as long as
the fuel exceeds the answer's length (each recursive call strictly shrinks
the answer). -/
theorem check_guess_fuel_congr (env : MatcherEnv) (guess : List Char) :
    ∀ (n : Nat) (ca : List Char) (f1 f2 : Nat),
      ca.length ≤ n → ca.length < f1 → ca.length < f2 →
      check_guess_fuel env f1 guess ca = check_guess_fuel env f2 guess ca := by
  intro n
  induction n with
  | zero =>
      intro ca f1 f2 hn h1 h2
      have hca : ca = [] := List.eq_nil_of_length_eq_zero (Nat.le_zero.mp hn)
      subst hca
      obtain ⟨k1, rfl⟩ : ∃ k, f1 = k + 1 := ⟨f1 - 1, by omega⟩
      obtain ⟨k2, rfl⟩ : ∃ k, f2 = k + 1 := ⟨f2 - 1, by omega⟩
      rw [check_guess_fuel, check_guess_fuel]
      simp [find_potential_answers, fpa_fuel]
  | succ n ih =>
      intro ca f1 f2 hn h1 h2
      obtain ⟨k1, rfl⟩ : ∃ k, f1 = k + 1 := ⟨f1 - 1, by omega⟩
      obtain ⟨k2, rfl⟩ : ∃ k, f2 = k + 1 := ⟨f2 - 1, by omega⟩
      rw [check_guess_fuel, check_guess_fuel]
      by_cases hl : (find_potential_answers ca).length = 2
      · have hany :
            (find_potential_answers ca).any
              (fun pa => check_guess_fuel env k1 guess (strip_parens pa)) =
            (find_potential_answers ca).any
              (fun pa => check_guess_fuel env k2 guess (strip_parens pa)) := by
          apply list_any_congr_of_mem
          intro pa hpa
          have hlt := strip_parens_lt hl hpa
          exact ih (strip_parens pa) k1 k2 (by omega) (by omega) (by omega)
        rw [hany]
      · simp [hl]

/-- Sufficient fuel computes `check_guess` itself. -/
theorem check_guess_fuel_eq (env : MatcherEnv) (guess ca : List Char)
    (f : Nat) (hf : ca.length < f) :
    check_guess_fuel env f guess ca = check_guess env guess ca :=
  check_guess_fuel_congr env guess ca.length ca f (ca.length + 1) le_rfl hf
    (Nat.lt_succ_self _)

/-! ### Claim theorems -/

/-- Claim C1 (amended): `Game.check_guess` invoked while `current_question`
is `None` immediately dereferences the absent question
(`self.current_question.answer`) and raises `AttributeError`; it is neither
a no-op nor an explicit "no active question" error. -/
theorem c1_no_question_raises (env : MatcherEnv) (g : Game) (pid guess : String)
    (h : g.current_question = none) :
    Game.check_guess env g pid guess =
      .error (.attributeError "answer") := by
  rw [Game.check_guess, h]

/-- Claim C1, counterexample to the claim as stated: at the concrete state
with no current question, `Game.check_guess` returns precisely the
`AttributeError` raised by dereferencing the absent question, refuting
"it never dereferences the absent question". -/
theorem c1_counterexample :
    Game.check_guess sample_env empty_game "p1" "x" =
      .error (.attributeError "answer") := rfl

theorem c1_witness :
    empty_game.current_question = none ∧
    Game.check_guess sample_env empty_game "p1" "x" =
      .error (.attributeError "answer") :=
  ⟨rfl, c1_no_question_raises sample_env empty_game "p1" "x" rfl⟩

/-- Claim C2: `Question.to_json` blanks the answer field for every
question, and every broadcast emitted by `update_current_question` (the
`NEW_QUESTION` event) carries such a redacted payload. -/
theorem c2_answer_redacted (q q2 : Question) (g : Game) (pid : Option String) :
    (Question.to_json q).get_field "answer" = some (Json.str "") ∧
    ∀ b ∈ (Game.update_current_question g (some q2) pid).broadcasts,
      b.event.payload.get_field "answer" = some (Json.str "") := by
  refine ⟨rfl, ?_⟩
  intro b hb
  rw [Game.update_current_question] at hb
  cases hcq : g.current_question with
  | none =>
      rw [hcq] at hb
      simp at hb
      subst hb
      rfl
  | some q1 =>
      rw [hcq] at hb
      simp at hb

theorem c2_witness :
    (Question.to_json q_paris).get_field "answer" = some (Json.str "") ∧
    ∀ b ∈ (Game.update_current_question empty_game (some q_paris) none).broadcasts,
      b.event.payload.get_field "answer" = some (Json.str "") :=
  c2_answer_redacted q_paris q_paris empty_game none

/-- Claim C3: `update_current_question` transitions IDLE to ACTIVE only:
with a question already current, pushing another question is a complete
no-op (state, broadcasts and watchers); pushing `None` while idle is a
no-op; and of two pushes from the idle state the first wins and the second
is dropped. -/
theorem c3_single_current_question (g : Game) (q q1 q2 : Question)
    (pid pid1 pid2 : Option String) :
    (g.current_question.isSome = true ->
      Game.update_current_question g (some q) pid = ⟨g, [], []⟩) ∧
    (g.current_question = none ->
      Game.update_current_question g none pid = ⟨g, [], []⟩) ∧
    (g.current_question = none ->
      (Game.update_current_question g (some q1) pid1).game.current_question = some q1 ∧
      Game.update_current_question
          (Game.update_current_question g (some q1) pid1).game (some q2) pid2 =
        ⟨(Game.update_current_question g (some q1) pid1).game, [], []⟩) := by
  obtain ⟨pl, cq, ip⟩ := g
  refine ⟨?_, ?_, ?_⟩
  · intro h
    cases cq with
    | none => simp at h
    | some q0 =>
        rw [Game.update_current_question]
        simp
  · intro h
    simp at h
    subst h
    rw [Game.update_current_question]
    simp
  · intro h
    simp at h
    subst h
    constructor
    · rw [Game.update_current_question]
      simp
    · rw [Game.update_current_question, Game.update_current_question]
      simp [Game.update_current_question]

theorem c3_witness :
    Game.update_current_question active_game (some q_everest) none =
      ⟨active_game, [], []⟩ ∧
    Game.update_current_question empty_game none none = ⟨empty_game, [], []⟩ ∧
    ((Game.update_current_question empty_game (some q_paris) none).game.current_question
        = some q_paris ∧
      Game.update_current_question
          (Game.update_current_question empty_game (some q_paris) none).game
          (some q_everest) none =
        ⟨(Game.update_current_question empty_game (some q_paris) none).game, [], []⟩) :=
  ⟨(c3_single_current_question active_game q_everest q_paris q_everest none none none).1 rfl,
   (c3_single_current_question empty_game q_everest q_paris q_everest none none none).2.1 rfl,
   (c3_single_current_question empty_game q_everest q_paris q_everest none none none).2.2 rfl⟩

/-- Claim C4: starting with no game in progress while the question source
yields nothing raises `RuntimeError('Failed to fetch starting question')`,
surfaced to the caller, and leaves the state unchanged: `in_progress` is
still false and `current_question` still `None`. -/
theorem c4_fatal_start (g : Game) (h : g.in_progress = false)
    (hq : g.current_question = none) :
    Game.start g none =
      (⟨g, [new_game_broadcast], []⟩, some "Failed to fetch starting question") ∧
    (Game.start g none).1.game.in_progress = false ∧
    (Game.start g none).1.game.current_question = none := by
  have h1 : Game.start g none =
      (⟨g, [new_game_broadcast], []⟩, some "Failed to fetch starting question") := by
    rw [Game.start]
    simp [h]
  refine ⟨h1, ?_, ?_⟩
  · rw [h1]; exact h
  · rw [h1]; exact hq

theorem c4_witness :
    Game.start empty_game none =
      (⟨empty_game, [new_game_broadcast], []⟩, some "Failed to fetch starting question") ∧
    (Game.start empty_game none).1.game.in_progress = false ∧
    (Game.start empty_game none).1.game.current_question = none :=
  c4_fatal_start empty_game rfl rfl

/-- Claim C7: `register_player` is idempotent with first-write-wins: a
present id leaves the state untouched and emits nothing; an absent id
appends a fresh zeroed record and emits exactly one `NEW_PLAYER` event. -/
theorem c7_register_idempotent (g : Game) (req : RegisterRequest) :
    ((g.players.lookup req.player_id).isSome = true ->
      Game.register_player g req = ⟨g, [], []⟩) ∧
    (g.players.lookup req.player_id = none ->
      Game.register_player g req =
        ⟨{ g with players := g.players ++ [(req.player_id,
            ⟨req.player_id, req.address, req.nick, 0, 0, 0⟩)] },
         [⟨⟨"NEW_PLAYER",
            PlayerInfo.to_json ⟨req.player_id, req.address, req.nick, 0, 0, 0⟩⟩, none⟩],
         []⟩) := by
  constructor
  · intro h
    rw [Game.register_player]
    cases hl : g.players.lookup req.player_id with
    | none => rw [hl] at h; simp at h
    | some p => simp [hl]
  · intro h
    rw [Game.register_player]
    simp [h]

theorem c7_witness :
    Game.register_player lobby_game req_alice = ⟨lobby_game, [], []⟩ ∧
    Game.register_player lobby_game req_bob =
      ⟨{ lobby_game with players := lobby_game.players ++ [("p2", bob)] },
       [⟨⟨"NEW_PLAYER", bob.to_json⟩, none⟩], []⟩ :=
  ⟨(c7_register_idempotent lobby_game req_alice).1 rfl,
   (c7_register_idempotent lobby_game req_bob).2 rfl⟩

/-- Claim C10: on every start from the not-in-progress state the `NEW_GAME`
broadcast is submitted before the external fetch is examined, so it is
emitted even when the fetch fails and start aborts — `NEW_GAME` does not
imply a game actually started. -/
theorem c10_new_game_before_fetch (g : Game) (fetched : Option Question)
    (h : g.in_progress = false) :
    (∃ rest, ((Game.start g fetched).1).broadcasts = new_game_broadcast :: rest) ∧
    ((Game.start g fetched).2.isSome = true ->
      ((Game.start g fetched).1).broadcasts = [new_game_broadcast]) := by
  cases fetched with
  | none =>
      constructor
      · refine ⟨[], ?_⟩
        rw [Game.start]
        simp [h]
      · intro _
        rw [Game.start]
        simp [h]
  | some q =>
      constructor
      · refine ⟨(Game.update_current_question { g with in_progress := true }
            (some q) none).broadcasts, ?_⟩
        rw [Game.start]
        simp [h]
      · intro hs
        rw [Game.start] at hs
        simp [h] at hs

theorem c10_witness :
    (∃ rest, ((Game.start empty_game none).1).broadcasts = new_game_broadcast :: rest) ∧
    ((Game.start empty_game none).2.isSome = true ->
      ((Game.start empty_game none).1).broadcasts = [new_game_broadcast]) :=
  c10_new_game_before_fetch empty_game none rfl

/-- Set-cardinality reading of the token-coverage comparison: the
intersection count equals the answer-token list length exactly when every
answer token occurs among the guess tokens AND the answer token list has no
duplicates. -/
theorem card_inter_eq_length_iff {α : Type} [DecidableEq α] (G A : List α) :
    ((G.toFinset ∩ A.toFinset).card = A.length) ↔
      ((∀ t ∈ A, t ∈ G) ∧ A.Nodup) := by
  constructor
  · intro h
    have hsubA : G.toFinset ∩ A.toFinset ⊆ A.toFinset := Finset.inter_subset_right
    have h1 : (G.toFinset ∩ A.toFinset).card ≤ A.toFinset.card :=
      Finset.card_le_card hsubA
    have h2 : A.toFinset.card ≤ A.length := A.toFinset_card_le
    have h3 : A.toFinset.card = A.length := le_antisymm h2 (by omega)
    have hnd : A.Nodup := by
      have h4 : A.dedup.length = A.length := by
        rw [← List.card_toFinset]
        exact h3
      have h5 : A.dedup = A := List.Sublist.eq_of_length (List.dedup_sublist A) h4
      rw [← h5]
      exact List.nodup_dedup A
    have hinter : G.toFinset ∩ A.toFinset = A.toFinset :=
      Finset.eq_of_subset_of_card_le hsubA (by omega)
    have hsub : A.toFinset ⊆ G.toFinset := Finset.inter_eq_right.mp hinter
    exact ⟨fun t ht => List.mem_toFinset.mp (hsub (List.mem_toFinset.mpr ht)), hnd⟩
  · rintro ⟨hsub, hnd⟩
    have hAG : A.toFinset ⊆ G.toFinset :=
      fun t ht => List.mem_toFinset.mpr (hsub t (List.mem_toFinset.mp ht))
    rw [Finset.inter_eq_right.mpr hAG, List.card_toFinset, hnd.dedup]

/-- Claim C8 (amended): the token-coverage step returns true iff every
remaining normalized answer token appears among the normalized guess tokens
AND the remaining answer token list is duplicate-free (the source compares
the intersection count against the *list* length `len(answer_tokens)`, so
duplicated answer tokens make it fail even under full containment); with no
answer tokens remaining it is vacuously true. -/
theorem c8_token_coverage_amended (stem : List Char → List Char)
    (stops : List (List Char)) (guess correct_answer : List Char) :
    (token_coverage stem stops guess correct_answer = true ↔
      ((∀ t ∈ answer_token_list stem stops correct_answer,
          t ∈ guess_token_list stem guess) ∧
        (answer_token_list stem stops correct_answer).Nodup)) ∧
    (answer_token_list stem stops correct_answer = [] →
      token_coverage stem stops guess correct_answer = true) := by
  constructor
  · rw [token_coverage, beq_iff_eq]
    exact card_inter_eq_length_iff _ _
  · intro h
    rw [token_coverage, h]
    simp

/-- Claim C8, counterexample to the claim as stated: for the guess "dodo"
against the answer "dodo dodo", every normalized answer token appears in
the guess token set, yet the step returns false (the two answer tokens
collapse to one in the intersection set while the list length is 2).
The identity stemmer agrees with the Snowball stemmer on "dodo", which is
not an English stopword. -/
theorem c8_counterexample :
    ¬ (token_coverage id english_stopwords "dodo".data "dodo dodo".data = true ↔
        ∀ t ∈ answer_token_list id english_stopwords "dodo dodo".data,
          t ∈ guess_token_list id "dodo".data) := by
  decide

theorem c8_witness :
    (token_coverage id english_stopwords "lincoln abraham".data "Abraham Lincoln".data = true ↔
      ((∀ t ∈ answer_token_list id english_stopwords "Abraham Lincoln".data,
          t ∈ guess_token_list id "lincoln abraham".data) ∧
        (answer_token_list id english_stopwords "Abraham Lincoln".data).Nodup)) ∧
    (answer_token_list id english_stopwords "Abraham Lincoln".data = [] →
      token_coverage id english_stopwords "lincoln abraham".data "Abraham Lincoln".data = true) :=
  c8_token_coverage_amended id english_stopwords "lincoln abraham".data "Abraham Lincoln".data

/-- Claim C9: when the answer splits into exactly two potential segments
under the findall scan, a guess that passes `check_guess` against either
segment with its parentheses stripped also passes against the whole
answer. -/
theorem c9_parenthetical_split (env : MatcherEnv) (guess a pa : List Char)
    (h2 : (find_potential_answers a).length = 2)
    (hm : pa ∈ find_potential_answers a)
    (hc : check_guess env guess (strip_parens pa) = true) :
    check_guess env guess a = true := by
  rw [check_guess, check_guess_fuel]
  have hany : (find_potential_answers a).any
      (fun x => check_guess_fuel env a.length guess (strip_parens x)) = true := by
    rw [List.any_eq_true]
    refine ⟨pa, hm, ?_⟩
    rw [check_guess_fuel_eq env guess (strip_parens pa) a.length (strip_parens_lt h2 hm)]
    exact hc
  simp [h2, hany]

theorem c9_witness :
    (find_potential_answers "Mount Everest (Sagarmatha)".data).length = 2 ∧
    "(Sagarmatha)".data ∈ find_potential_answers "Mount Everest (Sagarmatha)".data ∧
    check_guess sample_env_zero "Sagarmatha".data
      (strip_parens "(Sagarmatha)".data) = true ∧
    check_guess sample_env_zero "Sagarmatha".data
      "Mount Everest (Sagarmatha)".data = true :=
  ⟨by decide, by decide, by decide,
   c9_parenthetical_split sample_env_zero "Sagarmatha".data
     "Mount Everest (Sagarmatha)".data "(Sagarmatha)".data
     (by decide) (by decide) (by decide)⟩

/-- Claim C5: a guess by a registered player while a question is current
returns the matcher's verdict, increments the player's `total_answers`
unconditionally, on a match additionally increments `correct_answers`, adds
the question's value to `score` and clears the current question, leaves all
three untouched on a miss, and broadcasts exactly one `NEW_ANSWER` event
(guess text, updated player record, correctness flag) with no exclusion. -/
theorem c5_submit_guess (env : MatcherEnv) (g : Game) (pid guess : String)
    (p : PlayerInfo) (q : Question)
    (hp : g.players.lookup pid = some p) (hq : g.current_question = some q) :
    Game.check_guess env g pid guess =
      .ok (Jeopardy.check_guess env guess.data q.answer.data,
        ⟨⟨update_assoc g.players pid (updated_player env guess p q),
          (if Jeopardy.check_guess env guess.data q.answer.data then none
            else g.current_question),
          g.in_progress⟩,
         [⟨⟨"NEW_ANSWER",
            Json.obj [("answer", Json.str guess),
                      ("player", (updated_player env guess p q).to_json),
                      ("is_correct",
                        Json.bool (Jeopardy.check_guess env guess.data q.answer.data))]⟩,
           none⟩],
         []⟩) ∧
    (updated_player env guess p q).total_answers = p.total_answers + 1 ∧
    (Jeopardy.check_guess env guess.data q.answer.data = true →
      (updated_player env guess p q).correct_answers = p.correct_answers + 1 ∧
      (updated_player env guess p q).score = p.score + q.value) ∧
    (Jeopardy.check_guess env guess.data q.answer.data = false →
      (updated_player env guess p q).correct_answers = p.correct_answers ∧
      (updated_player env guess p q).score = p.score) := by
  cases hc : Jeopardy.check_guess env guess.data q.answer.data with
  | false =>
      refine ⟨?_, ?_, ?_, ?_⟩
      · rw [Game.check_guess, hq, hp]
        simp [hc, updated_player]
      · simp [updated_player, hc]
      · intro htrue
        simp at htrue
      · intro h0
        constructor <;> simp [updated_player, hc]
  | true =>
      refine ⟨?_, ?_, ?_, ?_⟩
      · rw [Game.check_guess, hq, hp]
        simp [hc, updated_player, Game.update_current_question]
      · simp [updated_player, hc]
      · intro h0
        constructor <;> simp [updated_player, hc]
      · intro hfalse
        simp at hfalse

theorem c5_witness :
    Game.check_guess sample_env active_game "p1" "paris" = .ok (true, guess_result) ∧
    alice_scored.total_answers = alice.total_answers + 1 ∧
    (true = true →
      alice_scored.correct_answers = alice.correct_answers + 1 ∧
      alice_scored.score = alice.score + q_paris.value) ∧
    (true = false →
      alice_scored.correct_answers = alice.correct_answers ∧
      alice_scored.score = alice.score) :=
  c5_submit_guess sample_env active_game "p1" "paris" alice q_paris rfl rfl

/-- Claim C6: the final lock-guarded check of the timeout watcher never
fires for a stale question (it exits silently); when the question is still
current it clears it and emits exactly one `QUESTION_TIMEOUT` revealing the
answer; and after a correct guess the cleared state makes the watcher exit
silently, so no `QUESTION_TIMEOUT` fires for that question. -/
theorem c6_timeout_watcher (g : Game) (q : Question) (env : MatcherEnv)
    (pid guess : String) :
    (g.is_current_question q.question_id = false →
      Game.question_timeout g q = ⟨g, [], []⟩) ∧
    (g.is_current_question q.question_id = true →
      Game.question_timeout g q =
        ⟨{ g with current_question := none },
         [⟨⟨"QUESTION_TIMEOUT", Json.obj [("answer", Json.str q.answer)]⟩, none⟩],
         []⟩) ∧
    (∀ (p : PlayerInfo) (r : StepResult),
      g.players.lookup pid = some p → g.current_question = some q →
      Game.check_guess env g pid guess = .ok (true, r) →
      Game.question_timeout r.game q = ⟨r.game, [], []⟩) := by
  refine ⟨?_, ?_, ?_⟩
  · intro h
    rw [Game.question_timeout, h]
    simp
  · intro h
    rw [Game.question_timeout, h]
    simp
  · intro p r hp hq hk
    rw [Game.check_guess, hq, hp] at hk
    cases hc : Jeopardy.check_guess env guess.data q.answer.data with
    | false => simp [hc] at hk
    | true =>
        simp [hc, Game.update_current_question] at hk
        subst hk
        rw [Game.question_timeout]
        simp [Game.is_current_question]

theorem c6_witness :
    Game.question_timeout empty_game q_paris = ⟨empty_game, [], []⟩ ∧
    Game.question_timeout active_game q_paris =
      ⟨⟨active_game.players, none, true⟩,
       [⟨⟨"QUESTION_TIMEOUT", Json.obj [("answer", Json.str "Paris")]⟩, none⟩],
       []⟩ ∧
    Game.question_timeout guess_result.game q_paris = ⟨guess_result.game, [], []⟩ :=
  ⟨(c6_timeout_watcher empty_game q_paris sample_env "p1" "paris").1 rfl,
   (c6_timeout_watcher active_game q_paris sample_env "p1" "paris").2.1 rfl,
   (c6_timeout_watcher active_game q_paris sample_env "p1" "paris").2.2 alice
     guess_result rfl rfl rfl⟩

end Jeopardy
